import Mathlib

/-!
Shallow embedding of the viewpoint-synchronisation and command-interpretation
core of trunk/nilgl.py: the camera state and navigation mathematics, the
command dispatcher inside the idle callback, and the busy-wait pacing
controller.  Machine floats are modelled as real numbers, Python exceptions
as values of an Except monad, and wall-clock time as a real-valued parameter.
The extension callbacks (idle_callback, keyboard_callback, command_callback)
are modelled as unregistered, which is the configuration all of the claims
speak about.
-/

namespace Nilgl

/-- Python exceptions that the modelled code can raise. -/
inductive PyErr | nameError | valueError | indexError
  deriving DecidableEq

/-- Motion modes; the source stores the strings F, W and V. -/
inductive MotionMode | F | W | V
  deriving DecidableEq

/-- One whitespace-delimited token of a command line.  A token that Python
can parse as an int literal is modelled by the int constructor, a token
parseable as a float but not as an int (such as 0.5) by num, and every other
token by str. -/
inductive Tok
  | int (n : ℤ)
  | num (x : ℝ)
  | str (s : String)

/-- Result of the Python builtin float applied to one token. -/
noncomputable def pyFloat : Tok → Except PyErr ℝ
  | Tok.int n => Except.ok (n : ℝ)
  | Tok.num x => Except.ok x
  | Tok.str _ => Except.error PyErr.valueError

/-- Result of the Python builtin int applied to one token; int accepts only
integer literals and raises ValueError on anything else. -/
def pyInt : Tok → Except PyErr ℤ
  | Tok.int n => Except.ok n
  | _ => Except.error PyErr.valueError

/-- Indexing words[i], raising IndexError when out of range. -/
def pyIndex (words : List Tok) (i : ℕ) : Except PyErr Tok :=
  match words[i]? with
  | some t => Except.ok t
  | none => Except.error PyErr.indexError

/-- Whether a token equals a given command word under Python string
equality; numeric tokens never equal a command name. -/
def Tok.isCmd : Tok → String → Bool
  | Tok.str s, c => s == c
  | _, _ => false

/-- Whether the raw (unsplit) command line consists of exactly the given
word: the source compares the raw line against help and quit before
splitting, and a raw line equal to such a word splits to the singleton
token list. -/
def rawIs (words : List Tok) (c : String) : Bool :=
  match words with
  | [t] => t.isCmd c
  | _ => false

/-- The snapshot iCX .. iUZ taken for reset_viewpoint (lines 150-151 and
265-274 of the source). -/
structure Snapshot where
  cx : ℝ
  cy : ℝ
  cz : ℝ
  vx : ℝ
  vy : ℝ
  vz : ℝ
  ux : ℝ
  uy : ℝ
  uz : ℝ

/-- The module-level mutable state of nilgl.py that the claims concern. -/
@[ext]
structure NilState where
  CX : ℝ
  CY : ℝ
  CZ : ℝ
  VX : ℝ
  VY : ℝ
  VZ : ℝ
  UX : ℝ
  UY : ℝ
  UZ : ℝ
  motion_mode : MotionMode
  default_step : ℝ
  default_angle : ℝ
  iView : Option Snapshot
  pause : ℝ
  wait_until : ℝ
  saving_mode : Bool
  save_template : Tok
  save_frame_number : ℤ
  seed : ℝ
  host : String

/-- Degrees to radians (def rad, line 1025). -/
noncomputable def rad (a : ℝ) : ℝ := a * Real.pi / 180

/-- The two-argument arctangent math.atan2 used by the source, modelled as
the argument of the complex number x + y i (same value and same branch cut
on exact reals). -/
noncomputable def atan2 (y x : ℝ) : ℝ := Complex.arg ⟨x, y⟩

/-- Parse an optional numeric argument (def get_num, lines 557-560): the
default is returned when the index is past the end, otherwise the token is
parsed as a float. -/
noncomputable def get_num (words : List Tok) (idx : ℕ) (default : ℝ) :
    Except PyErr ℝ :=
  match words[idx]? with
  | none => Except.ok default
  | some t => pyFloat t

/-- Truth value of the Python test (not iCX) at line 265: true when no
snapshot has been captured (iCX is None) and also when the captured cx is
the falsy float 0.0. -/
noncomputable def falsyICX : Option Snapshot → Bool
  | none => true
  | some v => if v.cx = 0 then true else false

/-- Set the viewpoint (def set_viewpoint, lines 252-274).  The camera triple
is overwritten unconditionally; the initial-viewpoint snapshot is captured
when the test (not iCX) succeeds. -/
noncomputable def set_viewpoint (cx cy cz vx vy vz ux uy uz : ℝ)
    (s : NilState) : NilState :=
  let s1 : NilState :=
    { s with CX := cx, CY := cy, CZ := cz, VX := vx, VY := vy, VZ := vz,
             UX := ux, UY := uy, UZ := uz }
  if falsyICX s.iView then
    { s1 with iView := some ⟨cx, cy, cz, vx, vy, vz, ux, uy, uz⟩ }
  else s1

/-- Set fly mode (def fly_mode, lines 291-294). -/
def fly_mode (s : NilState) : NilState := { s with motion_mode := MotionMode.F }

/-- Set walk mode (def walk_mode, lines 296-299). -/
def walk_mode (s : NilState) : NilState := { s with motion_mode := MotionMode.W }

/-- Set view mode (def view_mode, lines 286-289). -/
def view_mode (s : NilState) : NilState := { s with motion_mode := MotionMode.V }

/-- Reset the viewpoint (def reset_viewpoint, lines 237-250): copy the
snapshot back into the camera triple and re-enable fly mode.  When no
snapshot was ever captured the source writes None into each coordinate;
the coordinates here are real-valued, so that branch leaves them in place
(none of the claims exercises it). -/
def reset_viewpoint (s : NilState) : NilState :=
  match s.iView with
  | some v =>
      { s with CX := v.cx, CY := v.cy, CZ := v.cz, VX := v.vx, VY := v.vy,
               VZ := v.vz, UX := v.ux, UY := v.uy, UZ := v.uz,
               motion_mode := MotionMode.F }
  | none => { s with motion_mode := MotionMode.F }

/-- Move forward (def move_forward, lines 321-336).  The displacement and
its length are computed before any mutation, so the simultaneous record
update is faithful to the sequential += statements. -/
noncomputable def move_forward (dist : ℝ) (s : NilState) : NilState :=
  let dx := s.VX - s.CX
  let dy := s.VY - s.CY
  let dz := s.VZ - s.CZ
  let veclen := Real.sqrt (dx ^ 2 + dy ^ 2 + dz ^ 2)
  let fac := dist / veclen
  { s with
    CX := s.CX + fac * dx,
    CY := if s.motion_mode ≠ MotionMode.W then s.CY + fac * dy else s.CY,
    CZ := s.CZ + fac * dz,
    VX := s.VX + fac * dx,
    VY := if s.motion_mode ≠ MotionMode.W then s.VY + fac * dy else s.VY,
    VZ := s.VZ + fac * dz }

/-- Move sideways (def move_left, lines 338-357). -/
noncomputable def move_left (dist : ℝ) (s : NilState) : NilState :=
  let dx := s.VX - s.CX
  let dy := s.VY - s.CY
  let dz := s.VZ - s.CZ
  let veclen := Real.sqrt (dx ^ 2 + dy ^ 2 + dz ^ 2)
  let lat := Real.arcsin (dy / veclen)
  let lon := atan2 dz dx
  let direc := lon - Real.pi / 2
  let dxnew := Real.cos lat * Real.cos direc
  let dznew := Real.cos lat * Real.sin direc
  { s with
    CX := s.CX + dxnew * dist,
    CZ := s.CZ + dznew * dist,
    VX := s.VX + dxnew * dist,
    VZ := s.VZ + dznew * dist }

/-- Move vertically (def move_up, lines 359-366): a no-op in walk mode. -/
def move_up (dist : ℝ) (s : NilState) : NilState :=
  if s.motion_mode ≠ MotionMode.W then
    { s with CY := s.CY + dist, VY := s.VY + dist }
  else s

/-- Rotate vertically (def rotate_vertically, lines 368-400). -/
noncomputable def rotate_vertically (angle : ℝ) (s : NilState) : NilState :=
  let a := rad angle
  if s.motion_mode = MotionMode.V then
    let dx := s.CX - s.VX
    let dy := s.CY - s.VY
    let dz := s.CZ - s.VZ
    let veclen := Real.sqrt (dx ^ 2 + dy ^ 2 + dz ^ 2)
    let lat := Real.arcsin (dy / veclen)
    let dxnew := dx / Real.cos lat * Real.cos (lat + a)
    let dznew := dz / Real.cos lat * Real.cos (lat + a)
    { s with CX := s.VX + dxnew, CZ := s.VZ + dznew,
             CY := s.VY + veclen * Real.sin (lat + a) }
  else
    let dx := s.VX - s.CX
    let dy := s.VY - s.CY
    let dz := s.VZ - s.CZ
    let veclen := Real.sqrt (dx ^ 2 + dy ^ 2 + dz ^ 2)
    let lat := Real.arcsin (dy / veclen)
    let dxnew := dx / Real.cos lat * Real.cos (lat + a)
    let dznew := dz / Real.cos lat * Real.cos (lat + a)
    { s with VX := s.CX + dxnew, VZ := s.CZ + dznew,
             VY := s.CY + veclen * Real.sin (lat + a) }

/-- The latitude/longitude turn computation shared verbatim by the two
branches of rotate_horizontally in the source (lines 410-419 and 422-431):
from a displacement (dx, dy, dz) and an angle already in radians it returns
the new horizontal components (dxnew, dznew). -/
noncomputable def hturn (angle dx dy dz : ℝ) : ℝ × ℝ :=
  let veclen := Real.sqrt (dx ^ 2 + dy ^ 2 + dz ^ 2)
  let lat := Real.arcsin (dy / veclen)
  let lon := atan2 dz dx
  (veclen * Real.cos lat * Real.cos (lon + angle),
   veclen * Real.cos lat * Real.sin (lon + angle))

/-- Rotate horizontally (def rotate_horizontally, lines 402-431): in view
mode the camera orbits the look-at point, otherwise the look-at point swings
about the camera with the angle negated (so that +z goes to +x for a
positive angle). -/
noncomputable def rotate_horizontally (angle : ℝ) (s : NilState) : NilState :=
  if s.motion_mode = MotionMode.V then
    let d := hturn (rad angle) (s.CX - s.VX) (s.CY - s.VY) (s.CZ - s.VZ)
    { s with CX := s.VX + d.1, CZ := s.VZ + d.2 }
  else
    let d := hturn (-(rad angle)) (s.VX - s.CX) (s.VY - s.CY) (s.VZ - s.CZ)
    { s with VX := s.CX + d.1, VZ := s.CZ + d.2 }

/-- Arm the pacing controller (def wait_for, lines 1062-1066):
wait_until := time.time() + delay, with the current time passed in. -/
noncomputable def wait_for (delay : ℝ) (now : ℝ) (s : NilState) : NilState :=
  { s with wait_until := now + delay }

/-- Whether the pacing controller is busy (def waiting, lines 1068-1074):
true exactly while the current time is before the armed deadline. -/
noncomputable def waiting (now : ℝ) (s : NilState) : Bool :=
  if now < s.wait_until then true else false

/-- Outcome of handling one command line inside idle. -/
inductive CmdOutcome
  | exit
  | next (s : NilState) (redraw : Bool)

/-- The common tail of idle (lines 685-686): after a matched command, the
pacing controller is armed when the (possibly just-updated) pause is
positive, and a redraw is requested. -/
noncomputable def finish_tail (now : ℝ) (s : NilState) : NilState :=
  if 0 < s.pause then wait_for s.pause now s else s

/-- The built-in command chain of idle (lines 602-683), dispatching on the
first token c.  Returns some of the updated state for a matched command
(control then reaches the common tail), none for the final silent-drop
else branch (line 683), or a raised exception.  Branches whose bodies only
invoke external processes (audio and mixer calls) leave the modelled state
unchanged.  Two branches reproduce latent errors of the source exactly:
the four turn commands evaluate the undefined name default_ang (the global
is called default_angle) and so raise NameError before any parsing, and
argumentless save calls the undefined function save().  The save_frame and
seed branches parse their argument but idle does not declare those names
global, so the assignment binds an idle-local variable and the module state
is unchanged. -/
noncomputable def dispatch (c : Tok) (words : List Tok) (s : NilState) :
    Except PyErr (Option NilState) :=
  if c.isCmd "viewpoint" then
    -- commands without exactly 9 or 10 arguments are rejected (lines 602-616)
    if words.length = 10 ∨ words.length = 11 then do
      let cx ← pyIndex words 1 >>= pyFloat
      let cy ← pyIndex words 2 >>= pyFloat
      let cz ← pyIndex words 3 >>= pyFloat
      let vx ← pyIndex words 4 >>= pyFloat
      let vy ← pyIndex words 5 >>= pyFloat
      let vz ← pyIndex words 6 >>= pyFloat
      let ux ← pyIndex words 7 >>= pyFloat
      let uy ← pyIndex words 8 >>= pyFloat
      let uz ← pyIndex words 9 >>= pyFloat
      pure (some (set_viewpoint cx cy cz vx vy vz ux uy uz s))
    else pure (some s)
  else if c.isCmd "move_forward" then do
    let v ← get_num words 1 s.default_step
    pure (some (move_forward v s))
  else if c.isCmd "move_backward" then do
    let v ← get_num words 1 s.default_step
    pure (some (move_forward (-v) s))
  else if c.isCmd "move_left" then do
    let v ← get_num words 1 s.default_step
    pure (some (move_left v s))
  else if c.isCmd "move_right" then do
    let v ← get_num words 1 s.default_step
    pure (some (move_left (-v) s))
  else if c.isCmd "move_up" then do
    let v ← get_num words 1 s.default_step
    pure (some (move_up v s))
  else if c.isCmd "move_up" then do
    -- the source repeats the move_up test here (lines 632-634); the branch
    -- that was evidently meant to handle move_down is unreachable and
    -- move_down itself falls through to the final else
    let v ← get_num words 1 s.default_step
    pure (some (move_up (-v) s))
  else if c.isCmd "turn_left" then
    -- get_num (words, 1, default_ang): default_ang is undefined (line 636)
    Except.error PyErr.nameError
  else if c.isCmd "turn_right" then
    Except.error PyErr.nameError
  else if c.isCmd "turn_down" then
    Except.error PyErr.nameError
  else if c.isCmd "turn_up" then
    Except.error PyErr.nameError
  else if c.isCmd "reset_viewpoint" then
    pure (some (reset_viewpoint s))
  else if c.isCmd "fly_mode" then
    pure (some (fly_mode s))
  else if c.isCmd "walk_mode" then
    pure (some (walk_mode s))
  else if c.isCmd "view_mode" then
    pure (some (view_mode s))
  else if c.isCmd "play_audio" && s.host != "right-server" then do
    let _ ← pyIndex words 1
    pure (some s)
  else if c.isCmd "volume" && s.host == "right-server" then do
    let _ ← get_num words 1 100
    pure (some s)
  else if c.isCmd "louder" && s.host == "right-server" then
    pure (some s)
  else if c.isCmd "quieter" && s.host == "right-server" then
    pure (some s)
  else if c.isCmd "save_frame" then do
    let t ← pyIndex words 1
    let _ ← pyInt t
    pure (some s)
  else if c.isCmd "save_template" then do
    let t ← pyIndex words 1
    pure (some { s with save_template := t })
  else if c.isCmd "pause" then do
    let t ← pyIndex words 1
    let v ← pyFloat t
    pure (some { s with pause := v })
  else if c.isCmd "save" then
    if words.length ≤ 1 then
      -- save () at line 675 names a function that is defined nowhere
      Except.error PyErr.nameError
    else if (words[1]?.getD (Tok.str "")).isCmd "on" then
      pure (some { s with saving_mode := true })
    else if (words[1]?.getD (Tok.str "")).isCmd "off" then
      pure (some { s with saving_mode := false })
    else pure (some s)
  else if c.isCmd "seed" then do
    let t ← pyIndex words 1
    let _ ← pyInt t
    pure (some s)
  else
    pure none

/-- Handling of one received command line by idle (lines 562-686), with no
extension callbacks registered: the raw line is compared with help and quit,
an empty token list is ignored, and otherwise the first token is dispatched
through the built-in chain; a matched command runs the common pacing/redraw
tail, the else branch returns with no redraw. -/
noncomputable def apply_command (now : ℝ) (words : List Tok) (s : NilState) :
    Except PyErr CmdOutcome :=
  if rawIs words "help" then Except.ok (CmdOutcome.next s false)
  else if rawIs words "quit" then Except.ok CmdOutcome.exit
  else
    match words with
    | [] => Except.ok (CmdOutcome.next s false)
    | c :: _ =>
      match dispatch c words s with
      | Except.error e => Except.error e
      | Except.ok none => Except.ok (CmdOutcome.next s false)
      | Except.ok (some s1) =>
          Except.ok (CmdOutcome.next (finish_tail now s1) true)

/-- Result of one idle tick: the resulting state, whether a redraw was
requested, whether the command channel was polled, and whether the process
exited. -/
structure TickResult where
  state : NilState
  redraw : Bool
  polled : Bool
  exited : Bool

/-- One idle tick (def idle, lines 562-686) with no extension callbacks
registered: while the pacing controller is busy the tick only requests a
redraw and returns without polling the channel; otherwise the channel is
polled (its result is the line parameter) and the command is applied. -/
noncomputable def idle (now : ℝ) (line : List Tok) (s : NilState) :
    Except PyErr TickResult :=
  if waiting now s then Except.ok ⟨s, true, false, false⟩
  else
    match apply_command now line s with
    | Except.error e => Except.error e
    | Except.ok CmdOutcome.exit => Except.ok ⟨s, false, true, true⟩
    | Except.ok (CmdOutcome.next s1 r) => Except.ok ⟨s1, r, true, false⟩

/-- A navigation command in the sense of section 4.1 of the specification:
the operations of the navigation state machine. -/
inductive NavOp
  | moveForward (d : ℝ)
  | moveLeft (d : ℝ)
  | moveUp (d : ℝ)
  | rotateHorizontally (a : ℝ)
  | rotateVertically (a : ℝ)
  | flyMode
  | walkMode
  | viewMode
  | resetViewpoint

/-- Apply one navigation command to the state. -/
noncomputable def applyNavOp : NavOp → NilState → NilState
  | NavOp.moveForward d, s => move_forward d s
  | NavOp.moveLeft d, s => move_left d s
  | NavOp.moveUp d, s => move_up d s
  | NavOp.rotateHorizontally a, s => rotate_horizontally a s
  | NavOp.rotateVertically a, s => rotate_vertically a s
  | NavOp.flyMode, s => fly_mode s
  | NavOp.walkMode, s => walk_mode s
  | NavOp.viewMode, s => view_mode s
  | NavOp.resetViewpoint, s => reset_viewpoint s

/-- Apply a sequence of navigation commands in order. -/
noncomputable def applyNavOps (ops : List NavOp) (s : NilState) : NilState :=
  ops.foldl (fun t op => applyNavOp op t) s

/-- The module state at import time (lines 137-168 and 191-193 of the
source).  The source initialises seed from random.random(); the claims only
concern whether later commands change it, so the model starts it at 0. -/
noncomputable def initialState : NilState :=
  { CX := 0, CY := 0, CZ := 0, VX := 0, VY := 0, VZ := 10,
    UX := 0, UY := 1, UZ := 0,
    motion_mode := MotionMode.F,
    default_step := 0.5, default_angle := 1,
    iView := none, pause := 0, wait_until := 0,
    saving_mode := false, save_template := Tok.str "frame-%5.5d.png",
    save_frame_number := 0, seed := 0, host := "<unknown>" }

/-! Helper lemmas about the interpreter plumbing. -/

theorem rawIs_eq_false (t : Tok) (rest : List Tok) (c : String)
    (h : t.isCmd c = false) : rawIs (t :: rest) c = false := by
  cases rest
  · simpa [rawIs] using h
  · rfl

theorem apply_command_cons (now : ℝ) (c : Tok) (rest : List Tok)
    (s : NilState) (hh : c.isCmd "help" = false) (hq : c.isCmd "quit" = false) :
    apply_command now (c :: rest) s =
      match dispatch c (c :: rest) s with
      | Except.error e => Except.error e
      | Except.ok none => Except.ok (CmdOutcome.next s false)
      | Except.ok (some s1) =>
          Except.ok (CmdOutcome.next (finish_tail now s1) true) := by
  simp only [apply_command, rawIs_eq_false c rest _ hh,
    rawIs_eq_false c rest _ hq, Bool.false_eq_true, if_false]

theorem finish_tail_eq (now : ℝ) (s : NilState) :
    finish_tail now s =
      { s with wait_until := if 0 < s.pause then now + s.pause
                             else s.wait_until } := by
  unfold finish_tail wait_for
  split <;> rfl

theorem set_viewpoint_eq (cx cy cz vx vy vz ux uy uz : ℝ) (s : NilState) :
    set_viewpoint cx cy cz vx vy vz ux uy uz s =
      { s with CX := cx, CY := cy, CZ := cz, VX := vx, VY := vy, VZ := vz,
               UX := ux, UY := uy, UZ := uz,
               iView := if falsyICX s.iView then
                          some ⟨cx, cy, cz, vx, vy, vz, ux, uy, uz⟩
                        else s.iView } := by
  unfold set_viewpoint
  split <;> rfl

/-- C1: claimed behaviour is that every turn_left / turn_right / turn_up /
turn_down command applies the corresponding rotation, with the optional
second token as magnitude and the default angular step otherwise.  What the
code actually does: each of the four branches evaluates the undefined name
default_ang (the global is default_angle), so interpreting any such line
raises an uncaught NameError before any rotation is applied, with or
without a second token. -/
theorem C1_turn_commands_raise_name_error (now : ℝ) (s : NilState)
    (rest : List Tok) :
    apply_command now (Tok.str "turn_left" :: rest) s =
      Except.error PyErr.nameError ∧
    apply_command now (Tok.str "turn_right" :: rest) s =
      Except.error PyErr.nameError ∧
    apply_command now (Tok.str "turn_down" :: rest) s =
      Except.error PyErr.nameError ∧
    apply_command now (Tok.str "turn_up" :: rest) s =
      Except.error PyErr.nameError := by
  refine ⟨?_, ?_, ?_, ?_⟩ <;>
    rw [apply_command_cons _ _ _ _ (by rfl) (by rfl)] <;>
    simp [dispatch, Tok.isCmd, pure, Except.pure]

/-- C4: claimed behaviour is that a move_down line moves the camera
vertically downward.  What the code actually does: the dispatch chain tests
c == "move_up" twice and never tests for "move_down", so a move_down line
falls through to the silent-drop else branch: the state is returned
entirely unchanged and no redraw is requested. -/
theorem C4_move_down_is_dropped (now : ℝ) (s : NilState) (rest : List Tok) :
    apply_command now (Tok.str "move_down" :: rest) s =
      Except.ok (CmdOutcome.next s false) := by
  rw [apply_command_cons _ _ _ _ (by rfl) (by rfl)]
  simp [dispatch, Tok.isCmd, pure, Except.pure]

/-- C9: claimed behaviour is that save_frame n sets the save-frame counter
to n and seed s sets the random seed state.  What the code actually does:
idle parses the argument but does not declare save_frame_number or seed
global, so the assignment binds an idle-local variable and the module-level
counter and seed are unchanged for every n. -/
theorem C9_save_frame_and_seed_have_no_effect (now : ℝ) (s : NilState)
    (n k : ℤ) (rest : List Tok) :
    (∃ s1, apply_command now (Tok.str "save_frame" :: Tok.int n :: rest) s =
        Except.ok (CmdOutcome.next s1 true) ∧
      s1.save_frame_number = s.save_frame_number ∧ s1.seed = s.seed) ∧
    (∃ s2, apply_command now (Tok.str "seed" :: Tok.int k :: rest) s =
        Except.ok (CmdOutcome.next s2 true) ∧
      s2.save_frame_number = s.save_frame_number ∧ s2.seed = s.seed) := by
  constructor
  · refine ⟨finish_tail now s, ?_, ?_, ?_⟩
    · rw [apply_command_cons _ _ _ _ (by rfl) (by rfl)]
      simp [dispatch, Tok.isCmd, pyIndex, pyInt, pure, Except.pure,
        Bind.bind, Except.bind, Functor.map, Except.map]
    · rw [finish_tail_eq]
    · rw [finish_tail_eq]
  · refine ⟨finish_tail now s, ?_, ?_, ?_⟩
    · rw [apply_command_cons _ _ _ _ (by rfl) (by rfl)]
      simp [dispatch, Tok.isCmd, pyIndex, pyInt, pure, Except.pure,
        Bind.bind, Except.bind, Functor.map, Except.map]
    · rw [finish_tail_eq]
    · rw [finish_tail_eq]

/-- C3 counterexample: the claim says a command line with an unparseable
numeric field is dropped silently and interpreting it never raises; on the
concrete line move_forward abc the interpreter raises ValueError from
float("abc"). -/
theorem C3_counterexample :
    apply_command 0 [Tok.str "move_forward", Tok.str "abc"] initialState =
      Except.error PyErr.valueError := by
  rw [apply_command_cons _ _ _ _ (by rfl) (by rfl)]
  simp [dispatch, Tok.isCmd, get_num, pyFloat, pure, Except.pure,
        Bind.bind, Except.bind, Functor.map, Except.map]

/-- C3 amended: a command line whose numeric field does not parse as a
float is not dropped silently; the interpreter raises an uncaught
ValueError from float parsing (shown for move_forward abc with any further
tokens, and for viewpoint with nine non-numeric fields). -/
theorem C3_amended_unparseable_numeric_raises (now : ℝ) (s : NilState)
    (rest : List Tok) :
    apply_command now (Tok.str "move_forward" :: Tok.str "abc" :: rest) s =
      Except.error PyErr.valueError ∧
    apply_command now
      [Tok.str "viewpoint", Tok.str "a", Tok.str "b", Tok.str "c",
       Tok.str "d", Tok.str "e", Tok.str "f", Tok.str "g", Tok.str "h",
       Tok.str "i"] s = Except.error PyErr.valueError := by
  constructor
  · rw [apply_command_cons _ _ _ _ (by rfl) (by rfl)]
    simp [dispatch, Tok.isCmd, get_num, pyFloat, pure, Except.pure,
        Bind.bind, Except.bind, Functor.map, Except.map]
  · rw [apply_command_cons _ _ _ _ (by rfl) (by rfl)]
    simp [dispatch, Tok.isCmd, pyIndex, pyFloat, pure, Except.pure,
        Bind.bind, Except.bind, Functor.map, Except.map]

/-- C2: the interpreter applied to the literal line
viewpoint 0 0 0 0 0 10 0 1 0 sets P=(0,0,0), T=(0,0,10), U=(0,1,0) exactly,
and applied to a viewpoint line with any argument count other than nine or
ten it leaves P, T and U entirely unchanged (the command is rejected, never
partially applied). -/
theorem C2_viewpoint_exact_or_rejected (now : ℝ) (s : NilState) :
    (∃ s1, apply_command now
        [Tok.str "viewpoint", Tok.int 0, Tok.int 0, Tok.int 0, Tok.int 0,
         Tok.int 0, Tok.int 10, Tok.int 0, Tok.int 1, Tok.int 0] s =
        Except.ok (CmdOutcome.next s1 true) ∧
      s1.CX = 0 ∧ s1.CY = 0 ∧ s1.CZ = 0 ∧ s1.VX = 0 ∧ s1.VY = 0 ∧
      s1.VZ = 10 ∧ s1.UX = 0 ∧ s1.UY = 1 ∧ s1.UZ = 0) ∧
    (∀ rest : List Tok, rest.length ≠ 9 → rest.length ≠ 10 →
      ∃ s2, apply_command now (Tok.str "viewpoint" :: rest) s =
        Except.ok (CmdOutcome.next s2 true) ∧
      s2.CX = s.CX ∧ s2.CY = s.CY ∧ s2.CZ = s.CZ ∧ s2.VX = s.VX ∧
      s2.VY = s.VY ∧ s2.VZ = s.VZ ∧ s2.UX = s.UX ∧ s2.UY = s.UY ∧
      s2.UZ = s.UZ) := by
  constructor
  · refine ⟨finish_tail now (set_viewpoint 0 0 0 0 0 10 0 1 0 s), ?_,
      by simp [finish_tail_eq, set_viewpoint_eq]⟩
    rw [apply_command_cons _ _ _ _ (by rfl) (by rfl)]
    norm_num [dispatch, Tok.isCmd, pyIndex, pyFloat, pure, Except.pure,
      Bind.bind, Except.bind, Functor.map, Except.map]
  · intro rest h9 h10
    refine ⟨finish_tail now s, ?_, by simp [finish_tail_eq]⟩
    rw [apply_command_cons _ _ _ _ (by rfl) (by rfl)]
    simp [dispatch, Tok.isCmd, h9, h10, pure, Except.pure]

/-- C2 witness: the rejection part of C2 instantiated on the concrete wrong
count line viewpoint 0 0 0 0 0 10 (six arguments) from the initial state. -/
theorem C2_viewpoint_witness :
    (([Tok.int 0, Tok.int 0, Tok.int 0, Tok.int 0, Tok.int 0,
       Tok.int 10] : List Tok).length ≠ 9) ∧
    (∃ s2, apply_command 0 (Tok.str "viewpoint" ::
        [Tok.int 0, Tok.int 0, Tok.int 0, Tok.int 0, Tok.int 0, Tok.int 10])
        initialState = Except.ok (CmdOutcome.next s2 true) ∧
      s2.CX = initialState.CX ∧ s2.CY = initialState.CY ∧
      s2.CZ = initialState.CZ ∧ s2.VX = initialState.VX ∧
      s2.VY = initialState.VY ∧ s2.VZ = initialState.VZ ∧
      s2.UX = initialState.UX ∧ s2.UY = initialState.UY ∧
      s2.UZ = initialState.UZ) :=
  ⟨by decide,
   (C2_viewpoint_exact_or_rejected 0 initialState).2 _ (by decide) (by decide)⟩

/-- C5 counterexample: the claim says the InitialViewpoint snapshot is
set-once regardless of the numeric values passed, including zero
coordinates.  Concretely, a first set_viewpoint call with cx = 0 captures
the snapshot, and a second call then overwrites it, because the source
guards the capture with the falsy test (not iCX). -/
theorem C5_counterexample :
    (set_viewpoint 0 0 0 0 0 10 0 1 0 initialState).iView =
      some ⟨0, 0, 0, 0, 0, 10, 0, 1, 0⟩ ∧
    (set_viewpoint 1 2 3 4 5 6 7 8 9
        (set_viewpoint 0 0 0 0 0 10 0 1 0 initialState)).iView =
      some ⟨1, 2, 3, 4, 5, 6, 7, 8, 9⟩ ∧
    (set_viewpoint 1 2 3 4 5 6 7 8 9
        (set_viewpoint 0 0 0 0 0 10 0 1 0 initialState)).iView ≠
      (set_viewpoint 0 0 0 0 0 10 0 1 0 initialState).iView := by
  refine ⟨?_, ?_, ?_⟩ <;>
    norm_num [set_viewpoint_eq, initialState, falsyICX, Snapshot.mk.injEq]

/-- C5 amended: set_viewpoint captures the snapshot on any call made while
the stored snapshot is absent (first call) or has X coordinate 0 (Python
falsiness of iCX); once a call with nonzero cx has been recorded, no later
set_viewpoint modifies the snapshot. -/
theorem C5_amended_snapshot_capture (cx cy cz vx vy vz ux uy uz : ℝ)
    (s : NilState) :
    (s.iView = none →
      (set_viewpoint cx cy cz vx vy vz ux uy uz s).iView =
        some ⟨cx, cy, cz, vx, vy, vz, ux, uy, uz⟩) ∧
    (∀ v : Snapshot, s.iView = some v → v.cx ≠ 0 →
      (set_viewpoint cx cy cz vx vy vz ux uy uz s).iView = some v) := by
  constructor
  · intro h
    rw [set_viewpoint_eq]
    simp [h, falsyICX]
  · intro v h hv
    rw [set_viewpoint_eq]
    simp [h, falsyICX, hv]

/-- C5 witness: the amended rule applied concretely, with a nonzero stored
snapshot surviving a later call that passes zero coordinates. -/
theorem C5_amended_witness :
    ({ initialState with
        iView := some ⟨1, 2, 3, 4, 5, 6, 7, 8, 9⟩ } : NilState).iView =
      some ⟨1, 2, 3, 4, 5, 6, 7, 8, 9⟩ ∧ (1 : ℝ) ≠ 0 ∧
    (set_viewpoint 0 0 0 0 0 10 0 1 0
        { initialState with
          iView := some ⟨1, 2, 3, 4, 5, 6, 7, 8, 9⟩ }).iView =
      some ⟨1, 2, 3, 4, 5, 6, 7, 8, 9⟩ :=
  ⟨rfl, by norm_num,
   (C5_amended_snapshot_capture 0 0 0 0 0 10 0 1 0 _).2 _ rfl (by norm_num)⟩

theorem applyNavOp_iView (op : NavOp) (s : NilState) :
    (applyNavOp op s).iView = s.iView := by
  cases op <;>
    simp only [applyNavOp, move_forward, move_left, move_up,
      rotate_horizontally, rotate_vertically, fly_mode, walk_mode,
      view_mode, reset_viewpoint] <;>
    first
      | rfl
      | (split <;> rfl)

theorem applyNavOps_iView (ops : List NavOp) (s : NilState) :
    (applyNavOps ops s).iView = s.iView := by
  induction ops generalizing s with
  | nil => rfl
  | cons op ops ih =>
      rw [show applyNavOps (op :: ops) s
            = applyNavOps ops (applyNavOp op s) from rfl,
        ih, applyNavOp_iView]

/-- C6: after a first set_viewpoint call (no snapshot captured yet) and any
sequence of navigation commands, reset_viewpoint restores P, T and U
exactly to the values of that first call and forces fly mode.  The
navigation commands are the operations of the navigation state machine;
none of them touches the snapshot. -/
theorem C6_reset_restores_first_viewpoint (cx cy cz vx vy vz ux uy uz : ℝ)
    (s : NilState) (ops : List NavOp) (h : s.iView = none) :
    reset_viewpoint (applyNavOps ops (set_viewpoint cx cy cz vx vy vz ux uy uz s)) =
      { applyNavOps ops (set_viewpoint cx cy cz vx vy vz ux uy uz s) with
        CX := cx, CY := cy, CZ := cz, VX := vx, VY := vy, VZ := vz,
        UX := ux, UY := uy, UZ := uz, motion_mode := MotionMode.F } := by
  have hiv : (applyNavOps ops
      (set_viewpoint cx cy cz vx vy vz ux uy uz s)).iView =
      some ⟨cx, cy, cz, vx, vy, vz, ux, uy, uz⟩ := by
    rw [applyNavOps_iView, set_viewpoint_eq]
    simp [h, falsyICX]
  simp [reset_viewpoint, hiv]

/-- C6 witness: the restoration after a first call with viewpoint (1..9)
and a walk-mode switch. -/
theorem C6_reset_witness :
    initialState.iView = none ∧
    reset_viewpoint (applyNavOps [NavOp.walkMode]
        (set_viewpoint 1 2 3 4 5 6 7 8 9 initialState)) =
      { applyNavOps [NavOp.walkMode]
          (set_viewpoint 1 2 3 4 5 6 7 8 9 initialState) with
        CX := 1, CY := 2, CZ := 3, VX := 4, VY := 5, VZ := 6,
        UX := 7, UY := 8, UZ := 9, motion_mode := MotionMode.F } :=
  ⟨rfl, C6_reset_restores_first_viewpoint 1 2 3 4 5 6 7 8 9 initialState
    [NavOp.walkMode] rfl⟩

/-- C7: in walk mode, for any distance and any state with P different from
T, move_up leaves the entire state unchanged, and move_forward leaves the Y
coordinates of P and T unchanged, translating only their X and Z
coordinates (by a common pair of offsets). -/
theorem C7_walk_mode_preserves_height (s : NilState) (d : ℝ)
    (hm : s.motion_mode = MotionMode.W)
    (hpt : ¬(s.CX = s.VX ∧ s.CY = s.VY ∧ s.CZ = s.VZ)) :
    move_up d s = s ∧
    ∃ tx tz, move_forward d s =
      { s with CX := s.CX + tx, CZ := s.CZ + tz,
               VX := s.VX + tx, VZ := s.VZ + tz } := by
  constructor
  · simp [move_up, hm]
  · refine ⟨d / Real.sqrt ((s.VX - s.CX) ^ 2 + (s.VY - s.CY) ^ 2 +
        (s.VZ - s.CZ) ^ 2) * (s.VX - s.CX),
      d / Real.sqrt ((s.VX - s.CX) ^ 2 + (s.VY - s.CY) ^ 2 +
        (s.VZ - s.CZ) ^ 2) * (s.VZ - s.CZ), ?_⟩
    simp [move_forward, hm]

/-- C7 witness: the walk-mode invariants at the initial camera with the
mode switched to walk and distance 1. -/
theorem C7_walk_mode_witness :
    ({ initialState with motion_mode := MotionMode.W } : NilState).motion_mode
      = MotionMode.W ∧
    move_up 1 { initialState with motion_mode := MotionMode.W } =
      { initialState with motion_mode := MotionMode.W } :=
  ⟨rfl, (C7_walk_mode_preserves_height
    { initialState with motion_mode := MotionMode.W } 1 rfl
    (by norm_num [initialState])).1⟩

/-- C8: arming the pacing controller with duration p at time t makes
waiting true exactly at the instants strictly before t + p, and during any
idle tick on which the controller reports busy, the idle routine requests a
redraw and returns with the state unchanged, without polling the command
channel or applying any command. -/
theorem C8_pacing_controller (s : NilState) (t p : ℝ) (hp : 0 < p) :
    (∀ u : ℝ, waiting u (wait_for p t s) = true ↔ u < t + p) ∧
    (∀ (s2 : NilState) (u : ℝ) (line : List Tok), waiting u s2 = true →
      idle u line s2 = Except.ok ⟨s2, true, false, false⟩) := by
  constructor
  · intro u
    by_cases hu : u < t + p <;> simp [waiting, wait_for, hu]
  · intro s2 u line hw
    simp [idle, hw]

/-- C8 witness: arming with duration 1 at time 0 from the initial state;
time 0 is strictly before the deadline and the controller is busy there. -/
theorem C8_pacing_witness :
    (0 : ℝ) < 1 ∧
    (waiting 0 (wait_for 1 0 initialState) = true ↔ (0 : ℝ) < 0 + 1) :=
  ⟨by norm_num, (C8_pacing_controller initialState 0 1 (by norm_num)).1 0⟩

/-! Trigonometric helper lemmas for the horizontal-rotation roundtrip. -/

theorem abs_mk (x y : ℝ) :
    Complex.abs ⟨x, y⟩ = Real.sqrt (x ^ 2 + y ^ 2) := by
  rw [Complex.abs_apply, Complex.normSq_mk]
  congr 1
  ring

theorem cos_atan2 (y x : ℝ) (h : ¬(x = 0 ∧ y = 0)) :
    Real.cos (atan2 y x) = x / Real.sqrt (x ^ 2 + y ^ 2) := by
  have hz : (⟨x, y⟩ : ℂ) ≠ 0 := by
    simp only [ne_eq, Complex.ext_iff, Complex.zero_re, Complex.zero_im]
    exact h
  have hre : (⟨x, y⟩ : ℂ).re = x := rfl
  rw [atan2, Complex.cos_arg hz, hre, abs_mk]

theorem sin_atan2 (y x : ℝ) :
    Real.sin (atan2 y x) = y / Real.sqrt (x ^ 2 + y ^ 2) := by
  have him : (⟨x, y⟩ : ℂ).im = y := rfl
  rw [atan2, Complex.sin_arg, him, abs_mk]

theorem veclen_mul_cos_arcsin (dx dy dz : ℝ) (h : 0 < dx ^ 2 + dz ^ 2) :
    Real.sqrt (dx ^ 2 + dy ^ 2 + dz ^ 2) *
      Real.cos (Real.arcsin (dy / Real.sqrt (dx ^ 2 + dy ^ 2 + dz ^ 2))) =
      Real.sqrt (dx ^ 2 + dz ^ 2) := by
  set L := Real.sqrt (dx ^ 2 + dy ^ 2 + dz ^ 2) with hLdef
  have hsum : 0 < dx ^ 2 + dy ^ 2 + dz ^ 2 := by nlinarith [sq_nonneg dy]
  have hL : 0 < L := Real.sqrt_pos.mpr hsum
  have hL0 : L ≠ 0 := ne_of_gt hL
  have hL2 : L ^ 2 = dx ^ 2 + dy ^ 2 + dz ^ 2 := Real.sq_sqrt hsum.le
  rw [Real.cos_arcsin]
  have h1 : 1 - (dy / L) ^ 2 = (dx ^ 2 + dz ^ 2) / L ^ 2 := by
    field_simp
    linarith [hL2]
  rw [h1, Real.sqrt_div (by positivity) (L ^ 2), Real.sqrt_sq hL.le]
  field_simp

theorem rad_neg (a : ℝ) : rad (-a) = -(rad a) := by
  unfold rad
  ring

theorem hturn_eq (θ dx dy dz : ℝ) (h : 0 < dx ^ 2 + dz ^ 2) :
    hturn θ dx dy dz =
      (Real.sqrt (dx ^ 2 + dz ^ 2) * Real.cos (atan2 dz dx + θ),
       Real.sqrt (dx ^ 2 + dz ^ 2) * Real.sin (atan2 dz dx + θ)) := by
  simp only [hturn]
  rw [veclen_mul_cos_arcsin dx dy dz h]

theorem hturn_hturn (θ dx dy dz : ℝ) (h : ¬(dx = 0 ∧ dz = 0)) :
    hturn (-θ) (hturn θ dx dy dz).1 dy (hturn θ dx dy dz).2 = (dx, dz) := by
  have hsq : 0 < dx ^ 2 + dz ^ 2 := by
    rcases not_and_or.mp h with h1 | h1
    · have h2 : 0 < dx ^ 2 :=
        lt_of_le_of_ne (sq_nonneg dx) (Ne.symm (pow_ne_zero 2 h1))
      nlinarith [sq_nonneg dz]
    · have h2 : 0 < dz ^ 2 :=
        lt_of_le_of_ne (sq_nonneg dz) (Ne.symm (pow_ne_zero 2 h1))
      nlinarith [sq_nonneg dx]
  rw [hturn_eq θ dx dy dz hsq]
  set ρ := Real.sqrt (dx ^ 2 + dz ^ 2) with hρdef
  have hρ : 0 < ρ := Real.sqrt_pos.mpr hsq
  have hρ2 : ρ ^ 2 = dx ^ 2 + dz ^ 2 := Real.sq_sqrt hsq.le
  set A := atan2 dz dx + θ with hAdef
  show hturn (-θ) (ρ * Real.cos A) dy (ρ * Real.sin A) = (dx, dz)
  have htrig := Real.sin_sq_add_cos_sq A
  have hkey : (ρ * Real.cos A) ^ 2 + (ρ * Real.sin A) ^ 2 = dx ^ 2 + dz ^ 2 := by
    calc (ρ * Real.cos A) ^ 2 + (ρ * Real.sin A) ^ 2
        = ρ ^ 2 * (Real.sin A ^ 2 + Real.cos A ^ 2) := by ring
      _ = ρ ^ 2 := by rw [htrig, mul_one]
      _ = dx ^ 2 + dz ^ 2 := hρ2
  have hsq2 : 0 < (ρ * Real.cos A) ^ 2 + (ρ * Real.sin A) ^ 2 := by
    rw [hkey]
    exact hsq
  rw [hturn_eq (-θ) _ dy _ hsq2, hkey, ← hρdef]
  have hne : ¬(ρ * Real.cos A = 0 ∧ ρ * Real.sin A = 0) := by
    rintro ⟨h1, h2⟩
    have hc : Real.cos A = 0 := by
      rcases mul_eq_zero.mp h1 with h3 | h3
      · exact absurd h3 hρ.ne'
      · exact h3
    have hs : Real.sin A = 0 := by
      rcases mul_eq_zero.mp h2 with h3 | h3
      · exact absurd h3 hρ.ne'
      · exact h3
    rw [hc, hs] at htrig
    norm_num at htrig
  have hcos2 : Real.cos (atan2 (ρ * Real.sin A) (ρ * Real.cos A)) =
      Real.cos A := by
    rw [cos_atan2 _ _ hne, hkey, ← hρdef]
    field_simp
  have hsin2 : Real.sin (atan2 (ρ * Real.sin A) (ρ * Real.cos A)) =
      Real.sin A := by
    rw [sin_atan2, hkey, ← hρdef]
    field_simp
  have hAθ : A - θ = atan2 dz dx := by
    rw [hAdef]
    ring
  simp only [Prod.mk.injEq]
  constructor
  · rw [← sub_eq_add_neg, Real.cos_sub, hcos2, hsin2, ← Real.cos_sub, hAθ,
      cos_atan2 dz dx h, ← hρdef]
    field_simp
  · rw [← sub_eq_add_neg, Real.sin_sub, hcos2, hsin2, ← Real.sin_sub, hAθ,
      sin_atan2 dz dx, ← hρdef]
    field_simp

theorem rotate_horizontally_V (a : ℝ) (s : NilState)
    (hv : s.motion_mode = MotionMode.V) :
    rotate_horizontally a s =
      { s with
        CX := s.VX +
          (hturn (rad a) (s.CX - s.VX) (s.CY - s.VY) (s.CZ - s.VZ)).1,
        CZ := s.VZ +
          (hturn (rad a) (s.CX - s.VX) (s.CY - s.VY) (s.CZ - s.VZ)).2 } := by
  simp [rotate_horizontally, hv]

theorem rotate_horizontally_notV (a : ℝ) (s : NilState)
    (hv : s.motion_mode ≠ MotionMode.V) :
    rotate_horizontally a s =
      { s with
        VX := s.CX +
          (hturn (-(rad a)) (s.VX - s.CX) (s.VY - s.CY) (s.VZ - s.CZ)).1,
        VZ := s.CZ +
          (hturn (-(rad a)) (s.VX - s.CX) (s.VY - s.CY) (s.VZ - s.CZ)).2 } := by
  simp [rotate_horizontally, hv]

/-- C10: for every camera state whose view vector is non-vertical (the
horizontal components of T minus P are not both zero) and with P different
from T, rotating horizontally by a and then by minus a restores the state
exactly, whatever the motion mode (fly, walk or view); on exact reals the
floating-point tolerance of the claim sharpens to equality. -/
theorem C10_rotate_horizontally_roundtrip (s : NilState) (a : ℝ)
    (hvert : ¬(s.VX - s.CX = 0 ∧ s.VZ - s.CZ = 0))
    (hpt : ¬(s.CX = s.VX ∧ s.CY = s.VY ∧ s.CZ = s.VZ)) :
    rotate_horizontally (-a) (rotate_horizontally a s) = s := by
  by_cases hv : s.motion_mode = MotionMode.V
  · have hvert2 : ¬(s.CX - s.VX = 0 ∧ s.CZ - s.VZ = 0) := by
      rintro ⟨h1, h2⟩
      exact hvert ⟨by linarith, by linarith⟩
    rw [rotate_horizontally_V a s hv]
    set d := hturn (rad a) (s.CX - s.VX) (s.CY - s.VY) (s.CZ - s.VZ)
      with hd
    have hv2 : ({ s with CX := s.VX + d.1, CZ := s.VZ + d.2 }
        : NilState).motion_mode = MotionMode.V := hv
    rw [rotate_horizontally_V (-a) _ hv2]
    have e1 : ({ s with CX := s.VX + d.1, CZ := s.VZ + d.2 }
        : NilState).CX - ({ s with CX := s.VX + d.1, CZ := s.VZ + d.2 }
        : NilState).VX = d.1 := by
      simp
    have e2 : ({ s with CX := s.VX + d.1, CZ := s.VZ + d.2 }
        : NilState).CZ - ({ s with CX := s.VX + d.1, CZ := s.VZ + d.2 }
        : NilState).VZ = d.2 := by
      simp
    have e3 : ({ s with CX := s.VX + d.1, CZ := s.VZ + d.2 }
        : NilState).CY - ({ s with CX := s.VX + d.1, CZ := s.VZ + d.2 }
        : NilState).VY = s.CY - s.VY := rfl
    rw [e1, e2, e3, rad_neg, hd,
      hturn_hturn (rad a) (s.CX - s.VX) (s.CY - s.VY) (s.CZ - s.VZ) hvert2]
    ext <;> simp
  · rw [rotate_horizontally_notV a s hv]
    set d := hturn (-(rad a)) (s.VX - s.CX) (s.VY - s.CY) (s.VZ - s.CZ)
      with hd
    have hv2 : ({ s with VX := s.CX + d.1, VZ := s.CZ + d.2 }
        : NilState).motion_mode ≠ MotionMode.V := hv
    rw [rotate_horizontally_notV (-a) _ hv2]
    have e1 : ({ s with VX := s.CX + d.1, VZ := s.CZ + d.2 }
        : NilState).VX - ({ s with VX := s.CX + d.1, VZ := s.CZ + d.2 }
        : NilState).CX = d.1 := by
      simp
    have e2 : ({ s with VX := s.CX + d.1, VZ := s.CZ + d.2 }
        : NilState).VZ - ({ s with VX := s.CX + d.1, VZ := s.CZ + d.2 }
        : NilState).CZ = d.2 := by
      simp
    have e3 : ({ s with VX := s.CX + d.1, VZ := s.CZ + d.2 }
        : NilState).VY - ({ s with VX := s.CX + d.1, VZ := s.CZ + d.2 }
        : NilState).CY = s.VY - s.CY := rfl
    have e4 : -(rad (-a)) = -(-(rad a)) := by
      rw [rad_neg]
    rw [e1, e2, e3, e4, hd,
      hturn_hturn (-(rad a)) (s.VX - s.CX) (s.VY - s.CY) (s.VZ - s.CZ) hvert]
    ext <;> simp

/-- C10 witness: the roundtrip through 90 degrees and back at the initial
camera, whose view vector points along positive z (non-vertical). -/
theorem C10_roundtrip_witness :
    rotate_horizontally (-90) (rotate_horizontally 90 initialState) =
      initialState :=
  C10_rotate_horizontally_roundtrip initialState 90
    (by norm_num [initialState]) (by norm_num [initialState])

end Nilgl
